import Mathlib

/-!
Verification model of ipaserver/install/dsinstance.py (FreeIPA directory
server installer). Python strings are modelled as lists of characters,
module-level functions and DsInstance methods as Lean functions; calls to
external collaborators (process runner, LDAP client, certificate database,
state store) are modelled by explicit outcome parameters, and the externally
visible side effects of each method are collected into an event trace.
Python exceptions are modelled by an Except result whose error carries the
exception class.
-/

/-- Python str, modelled as its sequence of characters. -/
abbrev PyStr := List Char

/-- Python str.startswith: the argument is an initial segment. -/
def startswith (s p : PyStr) : Bool := s.take p.length == p

/-- Python str.endswith: the argument is a final segment. -/
def endswith (s suf : PyStr) : Bool := s.drop (s.length - suf.length) == suf

/-- Exception classes relevant to dsinstance.py. ScriptError
    (ipapython.admintool) subclasses Exception; SystemExit subclasses
    BaseException only, so a bare `except Exception` does not catch it. -/
inductive Exc
  | valueError
  | calledProcessError
  | scriptError
  | systemExit
  | otherError
deriving DecidableEq

/-- Whether a Python `except Exception` clause catches this class. -/
def Exc.isException : Exc → Bool
  | .systemExit => false
  | _ => true

/-- DS_INSTANCE_PREFIX = slapd- from dsinstance.py (name shortened). -/
def DS_INSTANCE_PFX : PyStr := "slapd-".toList

/-- The marker suffix of removed instances checked by get_ds_instances. -/
def REMOVED_MARK : PyStr := ".removed".toList

/-- The external removal tool paths.REMOVE_DS_PL (an abstract path constant). -/
def REMOVE_DS_PL : PyStr := "remove-ds.pl".toList

/-- The argv that remove_ds_instance passes to ipautil.run:
    the removal tool path, the -i flag, and slapd- followed by the
    serverid, plus the -f flag when forced. -/
def removeArgs (serverid : PyStr) (force : Bool) : List PyStr :=
  let instance_name := DS_INSTANCE_PFX ++ serverid
  let args := [REMOVE_DS_PL, "-i".toList, instance_name]
  if force then args ++ ["-f".toList] else args

/-- remove_ds_instance(serverid, force=False). The parameter runOk gives the
    outcome of each ipautil.run invocation (true = exit 0). On a
    CalledProcessError without force, the function calls itself once with
    force=True; with force it re-raises. Returns the list of argv actually
    run, and the final outcome. -/
def remove_ds_instance (runOk : List PyStr → Bool) (serverid : PyStr) :
    (force : Bool) → List (List PyStr) × Except Exc Unit
  | true =>
      let args := removeArgs serverid true
      if runOk args then ([args], Except.ok ())
      else ([args], Except.error Exc.calledProcessError)
  | false =>
      let args := removeArgs serverid false
      if runOk args then ([args], Except.ok ())
      else
        let retry := remove_ds_instance runOk serverid true
        (args :: retry.1, retry.2)
termination_by force => (if force then 0 else 1)
decreasing_by simp

/-- One entry of os.listdir(paths.ETC_DIRSRV) together with the result of
    os.path.isdir on the corresponding pathname. -/
structure FsEntry where
  basename : PyStr
  isDir : Bool
deriving DecidableEq

/-- The loop body of get_ds_instances: from one directory entry, the
    instance name appended to the result list, if any. -/
def slapd_instance_of (e : FsEntry) : Option PyStr :=
  if e.isDir &&
      (startswith e.basename DS_INSTANCE_PFX &&
       !endswith e.basename REMOVED_MARK) then
    let inst := e.basename.drop DS_INSTANCE_PFX.length
    if !inst.isEmpty then some inst else none
  else none

/-- get_ds_instances: collect instance names from the directory listing,
    then instances.sort(). -/
def get_ds_instances (listing : List FsEntry) : List PyStr :=
  let instances := listing.filterMap slapd_instance_of
  instances.insertionSort (· ≤ ·)

/-- constants.DOMAIN_LEVEL_0 from ipalib. -/
def DOMAIN_LEVEL_0 : Int := 0

/-- Error classes of the LDAP client get_entry call. -/
inductive LdapErr
  | notFound
  | other
deriving DecidableEq

/-- The entry cn=Domain Level,cn=ipa,cn=etc,basedn with the integer value of
    its ipaDomainLevel attribute. -/
structure DomainLevelEntry where
  ipaDomainLevel : Int
deriving DecidableEq

/-- get_domain_level: the parameter is the outcome of
    conn.get_entry for the Domain Level entry. errors.NotFound yields
    DOMAIN_LEVEL_0; any other error propagates; otherwise the integer value
    of the attribute is returned. -/
def get_domain_level (get_entry : Except LdapErr DomainLevelEntry) :
    Except LdapErr Int :=
  match get_entry with
  | Except.error LdapErr.notFound => Except.ok DOMAIN_LEVEL_0
  | Except.error e => Except.error e
  | Except.ok entry => Except.ok entry.ipaDomainLevel

/-- The numeric part of the substitution dictionary built by
    DsInstance.__setup_sub_dict. -/
structure SubDict where
  IDSTART : Option Int
  IDMAX : Option Int
  IDRANGE_SIZE : Option Int
deriving DecidableEq

/-- DsInstance.__setup_sub_dict, id-range part: idrange_size =
    self.idmax - self.idstart + 1, where the TypeError raised when an
    operand is None is caught and mapped to idrange_size = None. -/
def setup_sub_dict (idstart idmax : Option Int) : SubDict :=
  let idrange_size : Option Int :=
    match idstart, idmax with
    | some s, some m => some (m - s + 1)
    | _, _ => none
  ⟨idstart, idmax, idrange_size⟩

/-- The fixed idstart value set by DsInstance.create_replica. -/
def create_replica_idstart : Int := 1101

/-- The fixed idmax value set by DsInstance.create_replica. -/
def create_replica_idmax : Int := 1100

/-- The substitution dictionary produced on every replica install:
    create_replica passes the fixed idstart and idmax through init_info,
    which calls __setup_sub_dict. -/
def create_replica_sub_dict : SubDict :=
  setup_sub_dict (some create_replica_idstart) (some create_replica_idmax)

/-- Python truthiness of an optional string (None and the empty string are
    falsy). -/
def pyTruthyStr : Option PyStr → Bool
  | none => false
  | some s => !s.isEmpty

/-- The bind DN cn=Directory Manager used for a direct-credential join. -/
def DIRECTORY_MANAGER_DN : PyStr := "cn=Directory Manager".toList

/-- Externally visible calls made by DsInstance.__setup_replica, in order:
    the replication version check issued with the DM password, the external
    bind to self over ldapi, and the join call
    repl.setup_promote_replication(master, r_binddn, r_bindpw, cacert)
    against the remote master. -/
inductive ReplEvent
  | enableVersionChecking (dm_password : Option PyStr)
  | externalBindSelf
  | setupPromoteReplication (master : PyStr) (r_binddn : Option PyStr)
      (r_bindpw : Option PyStr) (cacert : Option PyStr)
deriving DecidableEq

/-- The DsInstance attributes consulted by __setup_replica. -/
structure ReplicaConfig where
  dm_password : Option PyStr
  promote : Bool
  master_fqdn : PyStr
  ca_file : Option PyStr

/-- DsInstance.__setup_replica. The parameter needs_fixup is the answer the
    replication manager returns from repl.needs_memberof_fixup() after the
    join. Returns the event trace and the outcome carrying the new value of
    self.run_init_memberof. Credential selection mirrors the source:
    `if self.dm_password is not None and not self.promote` selects Directory
    Manager credentials, otherwise bind_dn = bind_pw = None (GSSAPI). -/
def setup_replica (cfg : ReplicaConfig) (needs_fixup : Bool) :
    List ReplEvent × Except Exc Bool :=
  let pre := [ReplEvent.enableVersionChecking cfg.dm_password,
              ReplEvent.externalBindSelf]
  let bind :=
    if cfg.dm_password.isSome && !cfg.promote then
      (some DIRECTORY_MANAGER_DN, cfg.dm_password)
    else (none, none)
  (pre ++ [ReplEvent.setupPromoteReplication cfg.master_fqdn bind.1 bind.2
            cfg.ca_file],
   Except.ok needs_fixup)

/-- Externally visible calls made by DsInstance.init_memberof: applying
    memberof-task.ldif, binding to self (simple bind as Directory Manager if
    a DM password is set, GSSAPI otherwise), the blocking
    replication.wait_for_task poll, and the unbind. -/
inductive MemberofEvent
  | ldapModMemberofTask
  | simpleBindAsDirman
  | gssapiBind
  | waitForTask
  | unbind
deriving DecidableEq

/-- DsInstance.init_memberof: returns immediately when run_init_memberof is
    false; otherwise starts the memberof task and blocks on wait_for_task. -/
def init_memberof (run_init_memberof : Bool) (dm_password : Option PyStr) :
    List MemberofEvent :=
  if !run_init_memberof then []
  else
    [MemberofEvent.ldapModMemberofTask,
     if pyTruthyStr dm_password then MemberofEvent.simpleBindAsDirman
     else MemberofEvent.gssapiBind,
     MemberofEvent.waitForTask,
     MemberofEvent.unbind]

/-- Externally visible calls made by DsInstance.restart: the control-plane
    disconnect, the underlying service restart, the is_ds_running check, the
    critical log lines, and the control-plane reconnect. -/
inductive REvent
  | disconnect
  | superRestart
  | isRunningCheck
  | logCritical
  | connect
deriving DecidableEq

/-- DsInstance.restart. The parameter superOutcome is the outcome of
    service.Service.restart (none = returned normally); running is the
    answer of is_ds_running. The method re-raises SystemExit; every other
    exception, including the ScriptError it itself raises when the service
    is not running (ScriptError subclasses Exception), is caught by its own
    `except Exception` clause, logged critically, and swallowed, after which
    the control-plane session is reconnected. -/
def DsInstance.restart (superOutcome : Option Exc) (running : Bool) :
    List REvent × Except Exc Unit :=
  match superOutcome with
  | some e =>
      if e = Exc.systemExit then
        ([REvent.disconnect, REvent.superRestart], Except.error e)
      else
        ([REvent.disconnect, REvent.superRestart, REvent.logCritical,
          REvent.connect], Except.ok ())
  | none =>
      if running then
        ([REvent.disconnect, REvent.superRestart, REvent.isRunningCheck,
          REvent.connect], Except.ok ())
      else
        ([REvent.disconnect, REvent.superRestart, REvent.isRunningCheck,
          REvent.logCritical, REvent.logCritical, REvent.connect],
         Except.ok ())

/-- A value held by the persistent state store: the flows modelled here
    store booleans (enabled, running, user_exists) and strings (serverid,
    nsslapd-port, ...). -/
inductive StoreVal
  | b (v : Bool)
  | s (v : PyStr)
deriving DecidableEq

/-- Python truthiness of a StoreVal. -/
def StoreVal.truthy : StoreVal → Bool
  | .b v => v
  | .s v => !v.isEmpty

/-- The string content of a StoreVal (the modelled flows store serverid as a
    string). -/
def StoreVal.asStr : StoreVal → PyStr
  | .s v => v
  | .b _ => []

/-- Python truthiness of an optional StoreVal (None is falsy). -/
def truthyOpt : Option StoreVal → Bool
  | none => false
  | some v => v.truthy

/-- The persistent state store, keyed by the stable identifiers the steps
    choose. -/
abbrev Store := List (String × StoreVal)

/-- Modelled from the spec: backup(key, value) of the Persistent State Store
    (service.Service.backup_state backed by sysrestore, which is not among
    the sources here). Spec 4.1: backing up the same key twice during one
    run is a no-op on the second call (first-write-wins). -/
def backup_state (store : Store) (key : String) (v : StoreVal) : Store :=
  if store.any (fun kv => kv.1 == key) then store else store ++ [(key, v)]

/-- Modelled from the spec: restore(key) of the Persistent State Store
    (service.Service.restore_state, not among the sources here). It removes
    and returns the recorded prior value; a key never backed up yields none
    and is treated as nothing to undo. -/
def restore_state (store : Store) (key : String) : Option StoreVal × Store :=
  match store.find? (fun kv => kv.1 == key) with
  | none => (none, store)
  | some kv => (some kv.2, store.filter (fun kv2 => kv2.1 != key))

/-- The two calls made by DsInstance.__enable, in order. -/
inductive EnableEvent
  | backupEnabled (v : Bool)
  | disableService
deriving DecidableEq

/-- DsInstance.__enable: self.backup_state("enabled", self.is_enabled())
    followed by self.disable(). Returns the new store and the event trace. -/
def ds_enable_step (store : Store) (is_enabled : Bool) :
    Store × List EnableEvent :=
  (backup_state store ("enabled") (StoreVal.b is_enabled),
   [EnableEvent.backupEnabled is_enabled, EnableEvent.disableService])

/-- Externally visible actions of DsInstance.uninstall. -/
inductive UEvent
  | printUnconfiguring
  | restoreState (key : String) (result : Option StoreVal)
  | restoreFile (name : String)
  | logDebug
  | logError
  | enableService
  | stopTracking (serverid : PyStr)
  | runRemoveDs (args : List PyStr)
  | removeKeytab
  | removeCcache
  | restartInstance (name : PyStr)
deriving DecidableEq

/-- Outcomes of the external calls DsInstance.uninstall makes, and the
    environment it reads. A field value of none means the call returns
    normally; some e means it raises exception class e. -/
structure UninstallEnv where
  is_configured : Bool
  store : Store
  limits_exc : Option Exc
  sysconfig_exc : Option Exc
  enable_exc : Option Exc
  stop_tracking_exc : Option Exc
  runOk : List PyStr → Bool
  keytab_exc : Option Exc
  ccache_exc : Option Exc
  listing : List FsEntry
  restart_exc : PyStr → Option Exc

/-- The `try: fstore.restore_file(LIMITS_CONF); fstore.restore_file(
    SYSCONFIG_DIRSRV) except ValueError as error: debug(error)` block of
    uninstall. Returns the events and the uncaught exception, if any. -/
def restore_files_block (limits_exc sysconfig_exc : Option Exc) :
    List UEvent × Option Exc :=
  match limits_exc with
  | some e =>
      if e = Exc.valueError then
        ([UEvent.restoreFile ("limits"), UEvent.logDebug], none)
      else ([UEvent.restoreFile ("limits")], some e)
  | none =>
      match sysconfig_exc with
      | some e =>
          if e = Exc.valueError then
            ([UEvent.restoreFile ("limits"),
              UEvent.restoreFile ("sysconfig-dirsrv"), UEvent.logDebug], none)
          else
            ([UEvent.restoreFile ("limits"),
              UEvent.restoreFile ("sysconfig-dirsrv")], some e)
      | none =>
          ([UEvent.restoreFile ("limits"),
            UEvent.restoreFile ("sysconfig-dirsrv")], none)

/-- The `if serverid is not None:` block of uninstall:
    stop_tracking_certificates(serverid) (unguarded), then
    `try: remove_ds_instance(serverid); remove_keytab; remove_ccache
    except CalledProcessError: error log`. Returns the events and the
    uncaught exception, if any. -/
def remove_block (env : UninstallEnv) (sid : PyStr) :
    List UEvent × Option Exc :=
  match env.stop_tracking_exc with
  | some e => ([UEvent.stopTracking sid], some e)
  | none =>
      let rem := remove_ds_instance env.runOk sid false
      let trRem := UEvent.stopTracking sid :: rem.1.map UEvent.runRemoveDs
      match rem.2 with
      | Except.error e =>
          if e = Exc.calledProcessError then (trRem ++ [UEvent.logError], none)
          else (trRem, some e)
      | Except.ok _ =>
          match env.keytab_exc with
          | some e =>
              if e = Exc.calledProcessError then
                (trRem ++ [UEvent.removeKeytab, UEvent.logError], none)
              else (trRem ++ [UEvent.removeKeytab], some e)
          | none =>
              match env.ccache_exc with
              | some e =>
                  if e = Exc.calledProcessError then
                    (trRem ++ [UEvent.removeKeytab, UEvent.removeCcache,
                               UEvent.logError], none)
                  else
                    (trRem ++ [UEvent.removeKeytab, UEvent.removeCcache],
                     some e)
              | none =>
                  (trRem ++ [UEvent.removeKeytab, UEvent.removeCcache], none)

/-- The final loop of uninstall: for each remaining dirsrv instance,
    `try: dirsrv.restart(instance) except Exception: error log`. A raised
    SystemExit would not be caught. -/
def restart_remaining (restart_exc : PyStr → Option Exc) :
    List PyStr → List UEvent × Except Exc Unit
  | [] => ([], Except.ok ())
  | inst :: rest =>
      match restart_exc inst with
      | some e =>
          if e.isException then
            let r := restart_remaining restart_exc rest
            (UEvent.restartInstance inst :: UEvent.logError :: r.1, r.2)
          else ([UEvent.restartInstance inst], Except.error e)
      | none =>
          let r := restart_remaining restart_exc rest
          (UEvent.restartInstance inst :: r.1, r.2)

/-- The tail of uninstall after the serverid block: the four unconditional
    restore_state calls (user_exists, nsslapd-port, nsslapd-security,
    nsslapd-ldapiautobind) and the restart loop over get_ds_instances(). -/
def uninstall_restores_and_restarts (env : UninstallEnv) (store : Store)
    (tr : List UEvent) : List UEvent × Except Exc Unit :=
  let store4 := (restore_state store ("user_exists")).2
  let store5 := (restore_state store4 ("nsslapd-port")).2
  let store6 := (restore_state store5 ("nsslapd-security")).2
  let tr2 := tr ++
    [UEvent.restoreState ("user_exists")
       (restore_state store ("user_exists")).1,
     UEvent.restoreState ("nsslapd-port")
       (restore_state store4 ("nsslapd-port")).1,
     UEvent.restoreState ("nsslapd-security")
       (restore_state store5 ("nsslapd-security")).1,
     UEvent.restoreState ("nsslapd-ldapiautobind")
       (restore_state store6 ("nsslapd-ldapiautobind")).1]
  let r := restart_remaining env.restart_exc (get_ds_instances env.listing)
  (tr2 ++ r.1, r.2)

/-- The part of uninstall from `serverid = self.restore_state("serverid")`
    on. -/
def uninstall_tail (env : UninstallEnv) (store : Store) (tr : List UEvent) :
    List UEvent × Except Exc Unit :=
  let serveridVal := (restore_state store ("serverid")).1
  let store3 := (restore_state store ("serverid")).2
  let tr1 := tr ++ [UEvent.restoreState ("serverid") serveridVal]
  match serveridVal with
  | some v =>
      let rb := remove_block env v.asStr
      match rb.2 with
      | some e => (tr1 ++ rb.1, Except.error e)
      | none => uninstall_restores_and_restarts env store3 (tr1 ++ rb.1)
  | none => uninstall_restores_and_restarts env store3 tr1

/-- DsInstance.uninstall: print the banner when configured, restore the
    enabled and running records, restore the two config files (ValueError
    logged), re-enable the service if it was enabled (unguarded), then run
    the serverid block, the remaining restores, and the restart loop. -/
def uninstall (env : UninstallEnv) : List UEvent × Except Exc Unit :=
  let tr0 : List UEvent :=
    if env.is_configured then [UEvent.printUnconfiguring] else []
  let enabled := (restore_state env.store ("enabled")).1
  let store1 := (restore_state env.store ("enabled")).2
  let running := (restore_state store1 ("running")).1
  let store2 := (restore_state store1 ("running")).2
  let tr1 := tr0 ++ [UEvent.restoreState ("enabled") enabled,
                     UEvent.restoreState ("running") running]
  let fb := restore_files_block env.limits_exc env.sysconfig_exc
  match fb.2 with
  | some e => (tr1 ++ fb.1, Except.error e)
  | none =>
      let tr2 := tr1 ++ fb.1
      if truthyOpt enabled then
        match env.enable_exc with
        | some e => (tr2 ++ [UEvent.enableService], Except.error e)
        | none => uninstall_tail env store2 (tr2 ++ [UEvent.enableService])
      else uninstall_tail env store2 tr2

/-- Externally visible actions of DsInstance.add_ca_cert. -/
inductive CaEvent
  | logCritical
  | stopServer
  | loadCacert (nickname : PyStr)
  | startServer
deriving DecidableEq

/-- Outcomes of the external calls DsInstance.add_ca_cert makes: the
    os.access(cacert_fname, os.R_OK) readability check (error () = OSError
    raised) and the certdb.load_cacert call. -/
structure CaEnv where
  access_ok : Except Unit Bool
  load_exc : Option Exc

/-- DsInstance.add_ca_cert: return False when the CA certificate file is
    unreadable (or os.access raises OSError), before any other action;
    otherwise stop the server, default the nickname to Imported CA when
    empty, load the certificate (a CalledProcessError is logged and turns
    the result to False), and start the server again. -/
def add_ca_cert (env : CaEnv) (cacert_name : PyStr) :
    List CaEvent × Except Exc Bool :=
  match env.access_ok with
  | Except.error _ => ([CaEvent.logCritical], Except.ok false)
  | Except.ok false => ([CaEvent.logCritical], Except.ok false)
  | Except.ok true =>
      let nick := if cacert_name.isEmpty then "Imported CA".toList
                  else cacert_name
      match env.load_exc with
      | some e =>
          if e = Exc.calledProcessError then
            ([CaEvent.stopServer, CaEvent.loadCacert nick, CaEvent.logCritical,
              CaEvent.startServer], Except.ok false)
          else ([CaEvent.stopServer, CaEvent.loadCacert nick], Except.error e)
      | none =>
          ([CaEvent.stopServer, CaEvent.loadCacert nick, CaEvent.startServer],
           Except.ok true)

/-- An uninstall environment in which an unguarded rollback action fails:
    the service re-enable raises CalledProcessError. Fields in order:
    is_configured, store, limits_exc, sysconfig_exc, enable_exc,
    stop_tracking_exc, runOk, keytab_exc, ccache_exc, listing,
    restart_exc. -/
def C5_env : UninstallEnv :=
  ⟨true,
   [(("enabled"), StoreVal.b true),
    (("serverid"), StoreVal.s ("replica1".toList)),
    (("nsslapd-port"), StoreVal.s ("389".toList))],
   none, none, some Exc.calledProcessError, none,
   fun _ => true, none, none,
   [⟨"slapd-other".toList, true⟩], fun _ => none⟩

/-- An uninstall environment in which every guarded cleanup action fails:
    the limits.conf restore raises ValueError, both removal attempts
    (plain and forced) fail, and every remaining-instance restart raises.
    Fields in the same order as for C5_env. -/
def C5_wenv : UninstallEnv :=
  ⟨false,
   [(("serverid"), StoreVal.s ("r".toList))],
   some Exc.valueError, none, none, none,
   fun _ => false, none, none,
   [⟨"slapd-a".toList, true⟩], fun _ => some Exc.otherError⟩

/-- An uninstall environment whose store was produced by the __enable step
    with the prior enabled flag true, and in which no external call fails.
    Fields in the same order as for C5_env. -/
def C6_wenv : UninstallEnv :=
  ⟨false, (ds_enable_step [] true).1, none, none, none, none,
   fun _ => true, none, none, [], fun _ => none⟩

theorem remove_calls_eq (runOk : List PyStr → Bool) (sid : PyStr) :
    (remove_ds_instance runOk sid false).1 =
      (if runOk (removeArgs sid false) then [removeArgs sid false]
       else [removeArgs sid false, removeArgs sid true]) := by
  by_cases h1 : runOk (removeArgs sid false) <;>
    by_cases h2 : runOk (removeArgs sid true) <;>
      simp [remove_ds_instance, h1, h2]

theorem remove_first_call_mem (runOk : List PyStr → Bool) (sid : PyStr) :
    removeArgs sid false ∈ (remove_ds_instance runOk sid false).1 := by
  rw [remove_calls_eq]
  by_cases h1 : runOk (removeArgs sid false) <;> simp [h1]

theorem remove_error_iff (runOk : List PyStr → Bool) (sid : PyStr) :
    ((remove_ds_instance runOk sid false).2 = Except.error Exc.calledProcessError
      ↔ runOk (removeArgs sid false) = false ∧
          runOk (removeArgs sid true) = false) := by
  by_cases h1 : runOk (removeArgs sid false) <;>
    by_cases h2 : runOk (removeArgs sid true) <;>
      simp [remove_ds_instance, h1, h2]

theorem remove_result_cases (runOk : List PyStr → Bool) (sid : PyStr)
    (f : Bool) :
    (remove_ds_instance runOk sid f).2 = Except.ok ()
    ∨ (remove_ds_instance runOk sid f).2 =
        Except.error Exc.calledProcessError := by
  cases f <;>
    by_cases h1 : runOk (removeArgs sid false) <;>
      by_cases h2 : runOk (removeArgs sid true) <;>
        simp [remove_ds_instance, h1, h2]

/-- C4: for every serverid, remove_ds_instance invokes the external removal
    tool once without the force flag; if that invocation fails with a
    process error it retries exactly once with the forced -f variant, and
    the error propagates to the caller if and only if the forced attempt
    also fails. -/
theorem C4_remove_ds_instance_forced_retry (runOk : List PyStr → Bool)
    (serverid : PyStr) :
    (remove_ds_instance runOk serverid false).1 =
      (if runOk (removeArgs serverid false) then [removeArgs serverid false]
       else [removeArgs serverid false, removeArgs serverid true])
    ∧ ((remove_ds_instance runOk serverid false).2 =
          Except.error Exc.calledProcessError
        ↔ runOk (removeArgs serverid false) = false ∧
            runOk (removeArgs serverid true) = false)
    ∧ removeArgs serverid false =
        [REMOVE_DS_PL, "-i".toList, DS_INSTANCE_PFX ++ serverid]
    ∧ removeArgs serverid true =
        removeArgs serverid false ++ ["-f".toList] :=
  ⟨remove_calls_eq runOk serverid, remove_error_iff runOk serverid,
   rfl, rfl⟩

/-- C7: get_domain_level returns DOMAIN_LEVEL_0 = 0 when the Domain Level
    entry lookup raises NotFound, and otherwise the integer value of the
    ipaDomainLevel attribute of the found entry. -/
theorem C7_get_domain_level_default (e : DomainLevelEntry) :
    get_domain_level (Except.error LdapErr.notFound) = Except.ok DOMAIN_LEVEL_0
    ∧ DOMAIN_LEVEL_0 = 0
    ∧ get_domain_level (Except.ok e) = Except.ok e.ipaDomainLevel :=
  ⟨rfl, rfl, rfl⟩

/-- C9: create_replica fixes idstart = 1101 and idmax = 1100, so the
    IDRANGE_SIZE computed by __setup_sub_dict (idmax - idstart + 1) is
    exactly 0 on every replica install; when idstart or idmax is unset the
    computed size is the absent sentinel None rather than an error. -/
theorem C9_replica_idrange_depleted (s m : Option Int) :
    create_replica_sub_dict.IDRANGE_SIZE = some 0
    ∧ create_replica_idstart = 1101
    ∧ create_replica_idmax = 1100
    ∧ (s = none ∨ m = none → (setup_sub_dict s m).IDRANGE_SIZE = none) := by
  refine ⟨rfl, rfl, rfl, ?_⟩
  rintro (rfl | rfl)
  · cases m <;> rfl
  · cases s <;> rfl

theorem C9_replica_idrange_depleted_witness :
    ((none : Option Int) = none ∨ (some (5 : Int)) = none)
    ∧ (setup_sub_dict none (some 5)).IDRANGE_SIZE = none :=
  ⟨Or.inl rfl,
   (C9_replica_idrange_depleted none (some 5)).2.2.2 (Or.inl rfl)⟩

/-- C1 counterexample: at the lowest domain level (a non-promote install,
    the domain level 0 path per the docstring of __setup_replica) with no
    administrative secret supplied, __setup_replica does not fail with a
    precondition error: it returns normally and issues the join call to the
    peer with delegated (GSSAPI) credentials, bind DN and password None. -/
theorem C1_counterexample :
    (setup_replica ⟨none, false, "master.example.test".toList, none⟩
        false).2 = Except.ok false
    ∧ ReplEvent.setupPromoteReplication ("master.example.test".toList)
        none none none
        ∈ (setup_replica ⟨none, false, "master.example.test".toList, none⟩
            false).1 := by
  refine ⟨rfl, ?_⟩
  simp [setup_replica]

/-- C1 (amended): credential selection in __setup_replica follows the
    promote flag and the presence of the administrative secret: the join
    binds to the remote master as cn=Directory Manager with the secret if
    and only if the secret is supplied and the install is not a promotion
    (the domain level 0 path); in every other case, including a domain
    level 0 join with no secret, it uses the delegated GSSAPI identity with
    bind DN and password None. Absence of the secret is never checked as a
    precondition: the method always returns normally, after the version
    check and local bind calls and the join call to the peer. -/
theorem C1_setup_replica_credentials (cfg : ReplicaConfig) (fix : Bool) :
    (setup_replica cfg fix).2 = Except.ok fix
    ∧ (setup_replica cfg fix).1 =
        [ReplEvent.enableVersionChecking cfg.dm_password,
         ReplEvent.externalBindSelf,
         ReplEvent.setupPromoteReplication cfg.master_fqdn
           (if cfg.dm_password.isSome && !cfg.promote then
              some DIRECTORY_MANAGER_DN
            else none)
           (if cfg.dm_password.isSome && !cfg.promote then cfg.dm_password
            else none)
           cfg.ca_file] := by
  refine ⟨rfl, ?_⟩
  by_cases h : cfg.dm_password.isSome && !cfg.promote <;>
    simp [setup_replica, h]

/-- C2: run_init_memberof is set from the needs_memberof_fixup answer
    returned after the join call, for either value of that answer; and
    init_memberof starts the memberof repair task and blocks on the
    wait_for_task poll if and only if the flag is true, performing no
    directory operation at all when the flag is false. -/
theorem C2_memberof_fixup_gating (cfg : ReplicaConfig) (fix : Bool)
    (pw : Option PyStr) :
    (setup_replica cfg fix).2 = Except.ok fix
    ∧ init_memberof false pw = []
    ∧ MemberofEvent.ldapModMemberofTask ∈ init_memberof true pw
    ∧ (∀ b : Bool,
        (MemberofEvent.waitForTask ∈ init_memberof b pw ↔ b = true)
        ∧ (init_memberof b pw = [] ↔ b = false)) := by
  refine ⟨rfl, rfl, ?_, ?_⟩
  · by_cases hc : pyTruthyStr pw <;> simp [init_memberof, hc]
  · intro b
    cases b <;> by_cases hc : pyTruthyStr pw <;>
      simp [init_memberof, hc]

/-- C3 counterexample: when the underlying service restart raises an
    ordinary exception (for example CalledProcessError), and likewise when
    the restart succeeds but the service does not report running, the
    restart method of DsInstance catches the error with its own
    `except Exception` clause, logs it, reconnects, and returns normally:
    no error reaches the caller. -/
theorem C3_counterexample :
    DsInstance.restart (some Exc.calledProcessError) true =
      ([REvent.disconnect, REvent.superRestart, REvent.logCritical,
        REvent.connect], Except.ok ())
    ∧ DsInstance.restart none false =
      ([REvent.disconnect, REvent.superRestart, REvent.isRunningCheck,
        REvent.logCritical, REvent.logCritical, REvent.connect],
       Except.ok ()) :=
  ⟨rfl, rfl⟩

/-- C3 (amended): restart disconnects the control-plane session, restarts
    the service, verifies it reports running, and reconnects, in that
    order. A SystemExit raised by the restart propagates to the caller and
    skips the reconnect; any other failure of the restart or of the
    running verification (including the ScriptError the method itself
    raises, which subclasses Exception) is logged critically and swallowed
    by the method itself: the session is reconnected and the method
    returns normally, so no error is reported up to the calling step. -/
theorem C3_restart_order_and_swallow (superOutcome : Option Exc)
    (running : Bool) :
    DsInstance.restart none true =
      ([REvent.disconnect, REvent.superRestart, REvent.isRunningCheck,
        REvent.connect], Except.ok ())
    ∧ (superOutcome = some Exc.systemExit →
        (DsInstance.restart superOutcome running).2 =
          Except.error Exc.systemExit
        ∧ REvent.connect ∉ (DsInstance.restart superOutcome running).1)
    ∧ (∀ e : Exc, superOutcome = some e → e ≠ Exc.systemExit →
        (DsInstance.restart superOutcome running).2 = Except.ok ()
        ∧ REvent.logCritical ∈ (DsInstance.restart superOutcome running).1
        ∧ REvent.connect ∈ (DsInstance.restart superOutcome running).1)
    ∧ (superOutcome = none → running = false →
        (DsInstance.restart superOutcome running).2 = Except.ok ()
        ∧ REvent.logCritical ∈ (DsInstance.restart superOutcome running).1
        ∧ REvent.connect ∈ (DsInstance.restart superOutcome running).1) := by
  refine ⟨rfl, ?_, ?_, ?_⟩
  · rintro rfl
    refine ⟨rfl, ?_⟩
    simp [DsInstance.restart]
  · rintro e rfl hne
    cases e <;> simp_all [DsInstance.restart]
  · rintro rfl rfl
    refine ⟨rfl, ?_, ?_⟩ <;> simp [DsInstance.restart]

theorem C3_restart_order_and_swallow_witness :
    (DsInstance.restart (some Exc.calledProcessError) false).2 = Except.ok ()
    ∧ REvent.connect
        ∈ (DsInstance.restart (some Exc.calledProcessError) false).1 :=
  ⟨((C3_restart_order_and_swallow (some Exc.calledProcessError) false).2.2.1
      Exc.calledProcessError rfl (by decide)).1,
   ((C3_restart_order_and_swallow (some Exc.calledProcessError) false).2.2.1
      Exc.calledProcessError rfl (by decide)).2.2⟩

/-- C10: when the CA certificate file is unreadable (or the readability
    check itself raises OSError), add_ca_cert returns False with no other
    side effect: the server is not stopped or started and the certificate
    database is not touched. Once the check passes, the first action is
    stopping the server, and the server is started again even when loading
    the certificate fails with a process error, in which case the method
    returns False instead of raising. -/
theorem C10_add_ca_cert_readability_gate (env : CaEnv) (name : PyStr) :
    ((env.access_ok = Except.ok false ∨ env.access_ok = Except.error ()) →
        add_ca_cert env name = ([CaEvent.logCritical], Except.ok false))
    ∧ (env.access_ok = Except.ok true →
        (add_ca_cert env name).1.head? = some CaEvent.stopServer
        ∧ (env.load_exc = some Exc.calledProcessError →
            CaEvent.startServer ∈ (add_ca_cert env name).1
            ∧ (add_ca_cert env name).2 = Except.ok false)
        ∧ (env.load_exc = none →
            CaEvent.startServer ∈ (add_ca_cert env name).1
            ∧ (add_ca_cert env name).2 = Except.ok true)) := by
  obtain ⟨acc, lexc⟩ := env
  constructor
  · rintro (rfl | rfl) <;> rfl
  · rintro rfl
    refine ⟨?_, ?_, ?_⟩
    · cases lexc with
      | none => rfl
      | some e =>
          by_cases he : e = Exc.calledProcessError <;>
            simp [add_ca_cert, he]
    · rintro rfl
      constructor <;> simp [add_ca_cert]
    · rintro rfl
      constructor <;> simp [add_ca_cert]

theorem C10_add_ca_cert_readability_gate_witness :
    add_ca_cert ⟨Except.ok false, none⟩ [] =
      ([CaEvent.logCritical], Except.ok false)
    ∧ (add_ca_cert ⟨Except.ok true, some Exc.calledProcessError⟩ []).2 =
        Except.ok false
    ∧ CaEvent.startServer
        ∈ (add_ca_cert ⟨Except.ok true, some Exc.calledProcessError⟩ []).1 :=
  ⟨(C10_add_ca_cert_readability_gate ⟨Except.ok false, none⟩ []).1
      (Or.inl rfl),
   (((C10_add_ca_cert_readability_gate
        ⟨Except.ok true, some Exc.calledProcessError⟩ []).2 rfl).2.1 rfl).2,
   (((C10_add_ca_cert_readability_gate
        ⟨Except.ok true, some Exc.calledProcessError⟩ []).2 rfl).2.1 rfl).1⟩

theorem startswith_drop_eq_iff (b p X : PyStr) :
    (startswith b p = true ∧ b.drop p.length = X) ↔ b = p ++ X := by
  constructor
  · rintro ⟨h1, h2⟩
    have ht : b.take p.length = p := by simpa [startswith] using h1
    conv_lhs => rw [← List.take_append_drop p.length b, ht, h2]
  · rintro rfl
    refine ⟨?_, ?_⟩
    · simp [startswith]
    · simp

theorem slapd_instance_of_eq_some_iff (e : FsEntry) (X : PyStr) :
    slapd_instance_of e = some X ↔
      e.isDir = true ∧ e.basename = DS_INSTANCE_PFX ++ X ∧ X ≠ [] ∧
        endswith e.basename REMOVED_MARK = false := by
  unfold slapd_instance_of
  by_cases hd : e.isDir
  case neg => simp [hd]
  by_cases hs : startswith e.basename DS_INSTANCE_PFX
  case neg =>
    have hne : e.basename ≠ DS_INSTANCE_PFX ++ X := by
      intro hY
      exact hs ((startswith_drop_eq_iff e.basename DS_INSTANCE_PFX X).mpr
        hY).1
    simp [hd, hs, hne]
  by_cases he : endswith e.basename REMOVED_MARK
  case pos => simp [hd, hs, he]
  have hb : e.basename =
      DS_INSTANCE_PFX ++ e.basename.drop DS_INSTANCE_PFX.length :=
    (startswith_drop_eq_iff e.basename DS_INSTANCE_PFX
      (e.basename.drop DS_INSTANCE_PFX.length)).mp ⟨hs, rfl⟩
  simp only [hd, hs, he]
  simp
  constructor
  · rintro ⟨hlen, hdrop⟩
    have hbX : e.basename = DS_INSTANCE_PFX ++ X := by
      rw [hb, hdrop]
    refine ⟨hbX, ?_⟩
    intro hX
    subst hX
    rw [hbX] at hlen
    simp at hlen
  · rintro ⟨hbX, hX⟩
    constructor
    · rw [hbX, List.length_append]
      have hpos : 0 < X.length := List.length_pos.mpr hX
      omega
    · rw [hbX]
      simp

/-- C8: get_ds_instances returns a sorted list containing exactly those
    names X for which the listing of the dirsrv configuration directory
    contains a directory entry whose basename is slapd- followed by X,
    where X is non-empty and the basename does not end with .removed;
    non-directories and entries without the slapd- prefix never appear. -/
theorem C8_get_ds_instances_exact (listing : List FsEntry) (X : PyStr) :
    (X ∈ get_ds_instances listing ↔
       X ≠ [] ∧ endswith (DS_INSTANCE_PFX ++ X) REMOVED_MARK = false ∧
         ∃ e ∈ listing, e.basename = DS_INSTANCE_PFX ++ X ∧ e.isDir = true)
    ∧ (get_ds_instances listing).Sorted (· ≤ ·) := by
  constructor
  · unfold get_ds_instances
    rw [List.mem_insertionSort, List.mem_filterMap]
    constructor
    · rintro ⟨e, he, hsome⟩
      rcases (slapd_instance_of_eq_some_iff e X).mp hsome with
        ⟨h1, h2, h3, h4⟩
      rw [h2] at h4
      exact ⟨h3, h4, e, he, h2, h1⟩
    · rintro ⟨h3, h4, e, he, h2, h1⟩
      refine ⟨e, he, (slapd_instance_of_eq_some_iff e X).mpr
        ⟨h1, h2, h3, ?_⟩⟩
      rw [h2]
      exact h4
  · exact List.sorted_insertionSort _ _

theorem restart_remaining_spec (rex : PyStr → Option Exc)
    (hR : ∀ inst e, rex inst = some e → e.isException = true) :
    ∀ l : List PyStr, (restart_remaining rex l).2 = Except.ok ()
      ∧ ∀ inst ∈ l,
          UEvent.restartInstance inst ∈ (restart_remaining rex l).1 := by
  intro l
  induction l with
  | nil => exact ⟨rfl, by simp⟩
  | cons a rest ih =>
      cases hr : rex a with
      | none =>
          constructor
          · simp [restart_remaining, hr, ih.1]
          · intro inst hin
            rcases List.mem_cons.mp hin with rfl | hin2
            · simp [restart_remaining, hr]
            · simp only [restart_remaining, hr]
              exact List.mem_cons_of_mem _ (ih.2 inst hin2)
      | some e =>
          have hex := hR a e hr
          constructor
          · simp [restart_remaining, hr, hex, ih.1]
          · intro inst hin
            rcases List.mem_cons.mp hin with rfl | hin2
            · simp [restart_remaining, hr, hex]
            · simp only [restart_remaining, hr, hex, if_true]
              exact List.mem_cons_of_mem _
                (List.mem_cons_of_mem _ (ih.2 inst hin2))

theorem restart_remaining_no_enable (rex : PyStr → Option Exc) :
    ∀ l : List PyStr,
      UEvent.enableService ∉ (restart_remaining rex l).1 := by
  intro l
  induction l with
  | nil => simp [restart_remaining]
  | cons a rest ih =>
      cases hr : rex a with
      | none => simp [restart_remaining, hr, ih]
      | some e =>
          by_cases hex : e.isException <;>
            simp [restart_remaining, hr, hex, ih]

theorem remove_block_shape (env : UninstallEnv) (sid : PyStr)
    (hT : env.stop_tracking_exc = none)
    (hK : env.keytab_exc = none ∨ env.keytab_exc = some Exc.calledProcessError)
    (hC : env.ccache_exc = none ∨
          env.ccache_exc = some Exc.calledProcessError) :
    ∃ suffix, remove_block env sid =
      (UEvent.stopTracking sid ::
         ((remove_ds_instance env.runOk sid false).1.map UEvent.runRemoveDs
           ++ suffix),
       none) := by
  rcases remove_result_cases env.runOk sid false with hres | hres
  · rcases hK with hK | hK
    · rcases hC with hC | hC
      · exact ⟨[UEvent.removeKeytab, UEvent.removeCcache],
          by simp [remove_block, hT, hres, hK, hC]⟩
      · exact ⟨[UEvent.removeKeytab, UEvent.removeCcache, UEvent.logError],
          by simp [remove_block, hT, hres, hK, hC]⟩
    · exact ⟨[UEvent.removeKeytab, UEvent.logError],
        by simp [remove_block, hT, hres, hK]⟩
  · exact ⟨[UEvent.logError], by simp [remove_block, hT, hres]⟩

theorem remove_block_spec (env : UninstallEnv) (sid : PyStr)
    (hT : env.stop_tracking_exc = none)
    (hK : env.keytab_exc = none ∨ env.keytab_exc = some Exc.calledProcessError)
    (hC : env.ccache_exc = none ∨
          env.ccache_exc = some Exc.calledProcessError) :
    (remove_block env sid).2 = none
    ∧ UEvent.stopTracking sid ∈ (remove_block env sid).1
    ∧ UEvent.runRemoveDs (removeArgs sid false) ∈ (remove_block env sid).1 := by
  obtain ⟨suffix, hsh⟩ := remove_block_shape env sid hT hK hC
  rw [hsh]
  refine ⟨rfl, by simp, ?_⟩
  have hmem := remove_first_call_mem env.runOk sid
  simp only [List.mem_cons, List.mem_append, List.mem_map]
  exact Or.inr (Or.inl ⟨removeArgs sid false, hmem, rfl⟩)

theorem remove_block_no_enable (env : UninstallEnv) (sid : PyStr) :
    UEvent.enableService ∉ (remove_block env sid).1 := by
  unfold remove_block
  cases env.stop_tracking_exc with
  | some e => simp
  | none =>
      rcases remove_result_cases env.runOk sid false with hres | hres
      · cases hK : env.keytab_exc with
        | some e =>
            by_cases he : e = Exc.calledProcessError <;>
              simp [hres, hK, he, List.mem_map]
        | none =>
            cases hC : env.ccache_exc with
            | some e =>
                by_cases he : e = Exc.calledProcessError <;>
                  simp [hres, hC, he, List.mem_map]
            | none => simp [hres, hC, List.mem_map]
      · simp [hres, List.mem_map]

theorem urr_extends (env : UninstallEnv) (store : Store) (tr : List UEvent) :
    ∀ ev ∈ tr,
      ev ∈ (uninstall_restores_and_restarts env store tr).1 := by
  intro ev hev
  simp only [uninstall_restores_and_restarts]
  simp [hev]

theorem urr_spec (env : UninstallEnv) (store : Store) (tr : List UEvent)
    (hR : ∀ inst e, env.restart_exc inst = some e → e.isException = true) :
    (uninstall_restores_and_restarts env store tr).2 = Except.ok ()
    ∧ (∃ v, UEvent.restoreState ("user_exists") v
        ∈ (uninstall_restores_and_restarts env store tr).1)
    ∧ (∃ v, UEvent.restoreState ("nsslapd-port") v
        ∈ (uninstall_restores_and_restarts env store tr).1)
    ∧ (∃ v, UEvent.restoreState ("nsslapd-security") v
        ∈ (uninstall_restores_and_restarts env store tr).1)
    ∧ (∃ v, UEvent.restoreState ("nsslapd-ldapiautobind") v
        ∈ (uninstall_restores_and_restarts env store tr).1)
    ∧ (∀ inst ∈ get_ds_instances env.listing,
        UEvent.restartInstance inst
          ∈ (uninstall_restores_and_restarts env store tr).1) := by
  have hr := restart_remaining_spec env.restart_exc hR
    (get_ds_instances env.listing)
  simp only [uninstall_restores_and_restarts]
  refine ⟨hr.1, ?_, ?_, ?_, ?_, ?_⟩
  · refine ⟨(restore_state store ("user_exists")).1, ?_⟩
    simp
  · refine ⟨(restore_state (restore_state store ("user_exists")).2
      ("nsslapd-port")).1, ?_⟩
    simp
  · refine ⟨(restore_state (restore_state (restore_state store
      ("user_exists")).2 ("nsslapd-port")).2 ("nsslapd-security")).1, ?_⟩
    simp
  · refine ⟨(restore_state (restore_state (restore_state (restore_state store
      ("user_exists")).2 ("nsslapd-port")).2 ("nsslapd-security")).2
      ("nsslapd-ldapiautobind")).1, ?_⟩
    simp
  · intro inst hin
    simp only [List.mem_append]
    exact Or.inr (hr.2 inst hin)

theorem urr_no_enable (env : UninstallEnv) (store : Store)
    (tr : List UEvent) (h : UEvent.enableService ∉ tr) :
    UEvent.enableService
      ∉ (uninstall_restores_and_restarts env store tr).1 := by
  simp only [uninstall_restores_and_restarts]
  simp [h, restart_remaining_no_enable env.restart_exc
    (get_ds_instances env.listing)]

theorem uninstall_tail_spec (env : UninstallEnv) (store : Store)
    (tr : List UEvent)
    (hT : env.stop_tracking_exc = none)
    (hK : env.keytab_exc = none ∨ env.keytab_exc = some Exc.calledProcessError)
    (hC : env.ccache_exc = none ∨
          env.ccache_exc = some Exc.calledProcessError)
    (hR : ∀ inst e, env.restart_exc inst = some e → e.isException = true) :
    (uninstall_tail env store tr).2 = Except.ok ()
    ∧ (∃ v, UEvent.restoreState ("serverid") v
        ∈ (uninstall_tail env store tr).1)
    ∧ (∃ v, UEvent.restoreState ("user_exists") v
        ∈ (uninstall_tail env store tr).1)
    ∧ (∃ v, UEvent.restoreState ("nsslapd-port") v
        ∈ (uninstall_tail env store tr).1)
    ∧ (∃ v, UEvent.restoreState ("nsslapd-security") v
        ∈ (uninstall_tail env store tr).1)
    ∧ (∃ v, UEvent.restoreState ("nsslapd-ldapiautobind") v
        ∈ (uninstall_tail env store tr).1)
    ∧ (∀ inst ∈ get_ds_instances env.listing,
        UEvent.restartInstance inst ∈ (uninstall_tail env store tr).1)
    ∧ (∀ v, (restore_state store ("serverid")).1 = some v →
        UEvent.stopTracking v.asStr ∈ (uninstall_tail env store tr).1
        ∧ UEvent.runRemoveDs (removeArgs v.asStr false)
            ∈ (uninstall_tail env store tr).1) := by
  cases hsv : (restore_state store ("serverid")).1 with
  | none =>
      have heq : uninstall_tail env store tr =
          uninstall_restores_and_restarts env
            (restore_state store ("serverid")).2
            (tr ++ [UEvent.restoreState ("serverid") none]) := by
        simp only [uninstall_tail, hsv]
      rw [heq]
      obtain ⟨h1, h2, h3, h4, h5, h6⟩ := urr_spec env
        (restore_state store ("serverid")).2
        (tr ++ [UEvent.restoreState ("serverid") none]) hR
      refine ⟨h1, ⟨none, ?_⟩, h2, h3, h4, h5, h6, ?_⟩
      · exact urr_extends _ _ _ _ (by simp)
      · intro v hv
        exact Option.noConfusion hv
  | some v =>
      obtain ⟨hrb1, hrb2, hrb3⟩ := remove_block_spec env v.asStr hT hK hC
      have heq : uninstall_tail env store tr =
          uninstall_restores_and_restarts env
            (restore_state store ("serverid")).2
            ((tr ++ [UEvent.restoreState ("serverid") (some v)])
              ++ (remove_block env v.asStr).1) := by
        simp only [uninstall_tail, hsv, hrb1]
      rw [heq]
      obtain ⟨h1, h2, h3, h4, h5, h6⟩ := urr_spec env
        (restore_state store ("serverid")).2
        ((tr ++ [UEvent.restoreState ("serverid") (some v)])
          ++ (remove_block env v.asStr).1) hR
      refine ⟨h1, ⟨some v, ?_⟩, h2, h3, h4, h5, h6, ?_⟩
      · exact urr_extends _ _ _ _ (by simp)
      · intro v2 hv2
        injection hv2 with hveq
        subst hveq
        refine ⟨?_, ?_⟩
        · exact urr_extends _ _ _ _ (by simp [hrb2])
        · exact urr_extends _ _ _ _ (by simp [hrb3])

theorem uninstall_tail_extends (env : UninstallEnv) (store : Store)
    (tr : List UEvent) :
    ∀ ev ∈ tr, ev ∈ (uninstall_tail env store tr).1 := by
  intro ev hev
  cases hsv : (restore_state store ("serverid")).1 with
  | none =>
      simp only [uninstall_tail, hsv]
      exact urr_extends _ _ _ _ (by simp [hev])
  | some v =>
      simp only [uninstall_tail, hsv]
      cases hrb : (remove_block env v.asStr).2 with
      | some e => simp [hev]
      | none => exact urr_extends _ _ _ _ (by simp [hev])

theorem uninstall_tail_no_enable (env : UninstallEnv) (store : Store)
    (tr : List UEvent) (h : UEvent.enableService ∉ tr) :
    UEvent.enableService ∉ (uninstall_tail env store tr).1 := by
  cases hsv : (restore_state store ("serverid")).1 with
  | none =>
      simp only [uninstall_tail, hsv]
      exact urr_no_enable _ _ _ (by simp [h])
  | some v =>
      simp only [uninstall_tail, hsv]
      cases hrb : (remove_block env v.asStr).2 with
      | some e =>
          simp [h, remove_block_no_enable env v.asStr]
      | none =>
          exact urr_no_enable _ _ _
            (by simp [h, remove_block_no_enable env v.asStr])

theorem restore_files_ok (le se : Option Exc)
    (hL : le = none ∨ le = some Exc.valueError)
    (hS : se = none ∨ se = some Exc.valueError) :
    (restore_files_block le se).2 = none := by
  rcases hL with rfl | rfl
  · rcases hS with rfl | rfl <;> rfl
  · rfl

theorem restore_files_no_enable (le se : Option Exc) :
    UEvent.enableService ∉ (restore_files_block le se).1 := by
  unfold restore_files_block
  cases le with
  | some e => by_cases he : e = Exc.valueError <;> simp [he]
  | none =>
      cases se with
      | some e => by_cases he : e = Exc.valueError <;> simp [he]
      | none => simp

/-- C5 (amended): during uninstall the anticipated cleanup failures are
    tolerated independently: with no hypothesis at all on the outcome of
    the removal tool (runOk), so even when both the plain and the forced
    removal attempt fail, and allowing every remaining-instance restart to
    raise an ordinary exception and the config-file restores to raise
    ValueError, uninstall still completes with no error, restores every
    remaining recorded state key, attempts to restart every remaining
    dirsrv instance, and, when a serverid record exists, attempts the
    removal. Only the guarded actions are independent: the unguarded
    actions (service re-enable and certificate untracking) appear here as
    the hypotheses that they return normally; a separate concrete
    evaluation shows that a failure of one of them aborts the
    orchestrator. -/
theorem C5_uninstall_guarded_best_effort (env : UninstallEnv)
    (hE : env.enable_exc = none)
    (hT : env.stop_tracking_exc = none)
    (hL : env.limits_exc = none ∨ env.limits_exc = some Exc.valueError)
    (hS : env.sysconfig_exc = none ∨ env.sysconfig_exc = some Exc.valueError)
    (hK : env.keytab_exc = none ∨ env.keytab_exc = some Exc.calledProcessError)
    (hC : env.ccache_exc = none ∨
          env.ccache_exc = some Exc.calledProcessError)
    (hR : ∀ inst e, env.restart_exc inst = some e → e.isException = true) :
    (uninstall env).2 = Except.ok ()
    ∧ (∃ v, UEvent.restoreState ("serverid") v ∈ (uninstall env).1)
    ∧ (∃ v, UEvent.restoreState ("user_exists") v ∈ (uninstall env).1)
    ∧ (∃ v, UEvent.restoreState ("nsslapd-port") v ∈ (uninstall env).1)
    ∧ (∃ v, UEvent.restoreState ("nsslapd-security") v ∈ (uninstall env).1)
    ∧ (∃ v, UEvent.restoreState ("nsslapd-ldapiautobind") v
        ∈ (uninstall env).1)
    ∧ (∀ inst ∈ get_ds_instances env.listing,
        UEvent.restartInstance inst ∈ (uninstall env).1)
    ∧ (∀ v, (restore_state (restore_state (restore_state env.store
          ("enabled")).2 ("running")).2 ("serverid")).1 = some v →
        UEvent.stopTracking v.asStr ∈ (uninstall env).1
        ∧ UEvent.runRemoveDs (removeArgs v.asStr false)
            ∈ (uninstall env).1) := by
  have hfb := restore_files_ok env.limits_exc env.sysconfig_exc hL hS
  have hex : ∃ t, uninstall env = uninstall_tail env
      (restore_state (restore_state env.store ("enabled")).2 ("running")).2
      t := by
    cases hen : truthyOpt (restore_state env.store ("enabled")).1
    · exact ⟨_, by simp [uninstall, hfb, hen, hE]; rfl⟩
    · exact ⟨_, by simp [uninstall, hfb, hen, hE]; rfl⟩
  obtain ⟨t, heq⟩ := hex
  rw [heq]
  exact uninstall_tail_spec env _ t hT hK hC hR

theorem C5_counterexample :
    (uninstall C5_env).2 = Except.error Exc.calledProcessError
    ∧ (uninstall C5_env).1 =
        [UEvent.printUnconfiguring,
         UEvent.restoreState ("enabled") (some (StoreVal.b true)),
         UEvent.restoreState ("running") none,
         UEvent.restoreFile ("limits"),
         UEvent.restoreFile ("sysconfig-dirsrv"),
         UEvent.enableService]
    ∧ (∀ v, UEvent.restoreState ("serverid") v ∉ (uninstall C5_env).1)
    ∧ (∀ sid, UEvent.stopTracking sid ∉ (uninstall C5_env).1)
    ∧ (∀ name, UEvent.restartInstance name ∉ (uninstall C5_env).1) := by
  have htr : (uninstall C5_env).1 =
      [UEvent.printUnconfiguring,
       UEvent.restoreState ("enabled") (some (StoreVal.b true)),
       UEvent.restoreState ("running") none,
       UEvent.restoreFile ("limits"),
       UEvent.restoreFile ("sysconfig-dirsrv"),
       UEvent.enableService] := by rfl
  refine ⟨rfl, htr, ?_, ?_, ?_⟩ <;> intro x <;> rw [htr] <;> simp

theorem C5_uninstall_guarded_best_effort_witness :
    (uninstall C5_wenv).2 = Except.ok ()
    ∧ UEvent.runRemoveDs (removeArgs ("r".toList) false)
        ∈ (uninstall C5_wenv).1
    ∧ UEvent.restartInstance ("a".toList) ∈ (uninstall C5_wenv).1 := by
  have h := C5_uninstall_guarded_best_effort C5_wenv rfl rfl
    (Or.inr rfl) (Or.inl rfl) (Or.inl rfl) (Or.inl rfl)
    (fun inst e he => by
      injection he with h2
      subst h2
      rfl)
  refine ⟨h.1, ?_, ?_⟩
  · exact (h.2.2.2.2.2.2.2 (StoreVal.s ("r".toList)) rfl).2
  · exact h.2.2.2.2.2.2.1 ("a".toList) (by decide)

theorem uninstall_no_enable_of_not_enabled (env : UninstallEnv)
    (hen : truthyOpt (restore_state env.store ("enabled")).1 = false) :
    UEvent.enableService ∉ (uninstall env).1 := by
  have hnen := restore_files_no_enable env.limits_exc env.sysconfig_exc
  cases hfb : (restore_files_block env.limits_exc env.sysconfig_exc).2 with
  | some e =>
      have hex : ∃ t, uninstall env = (t, Except.error e)
          ∧ UEvent.enableService ∉ t := by
        refine ⟨_, by simp [uninstall, hfb]; rfl, ?_⟩
        cases env.is_configured <;> simp_all
      obtain ⟨t, heq, hnt⟩ := hex
      rw [heq]
      exact hnt
  | none =>
      have hex : ∃ s t, uninstall env = uninstall_tail env s t
          ∧ UEvent.enableService ∉ t := by
        refine ⟨_, _, by simp [uninstall, hfb, hen]; rfl, ?_⟩
        cases env.is_configured <;> simp_all
      obtain ⟨s, t, heq, hnt⟩ := hex
      rw [heq]
      exact uninstall_tail_no_enable env s t hnt

/-- C6: the __enable install step backs up the prior enabled flag under the
    key enabled before disabling the service, and uninstall restores that
    record: provided the store had no prior enabled record (a single
    installation run) and the config-file restores raise at most ValueError,
    the service is re-enabled during uninstall if and only if the backed-up
    enabled value recorded at install time was true. -/
theorem C6_enable_backup_restore (store0 : Store) (v : Bool)
    (env : UninstallEnv)
    (h0 : ∀ kv ∈ store0, kv.1 ≠ ("enabled" : String))
    (hstore : env.store = (ds_enable_step store0 v).1)
    (hL : env.limits_exc = none ∨ env.limits_exc = some Exc.valueError)
    (hS : env.sysconfig_exc = none ∨ env.sysconfig_exc = some Exc.valueError) :
    (ds_enable_step store0 v).2 =
      [EnableEvent.backupEnabled v, EnableEvent.disableService]
    ∧ (UEvent.enableService ∈ (uninstall env).1 ↔ v = true) := by
  refine ⟨rfl, ?_⟩
  have hany : store0.any (fun kv => kv.1 == ("enabled" : String)) = false := by
    rw [List.any_eq_false]
    intro x hx
    simp [h0 x hx]
  have hnone : store0.find? (fun kv => kv.1 == ("enabled" : String))
      = none := by
    rw [List.find?_eq_none]
    intro x hx
    simp [h0 x hx]
  have hfind : (restore_state env.store ("enabled")).1
      = some (StoreVal.b v) := by
    rw [hstore]
    simp [ds_enable_step, backup_state, restore_state, hany, hnone]
  have hfb := restore_files_ok env.limits_exc env.sysconfig_exc hL hS
  cases v with
  | false =>
      have hen : truthyOpt (restore_state env.store ("enabled")).1
          = false := by
        rw [hfind]
        rfl
      simp only [Bool.false_eq_true, iff_false]
      exact uninstall_no_enable_of_not_enabled env hen
  | true =>
      have hen : truthyOpt (restore_state env.store ("enabled")).1
          = true := by
        rw [hfind]
        rfl
      simp only [iff_true]
      cases hee : env.enable_exc with
      | some e =>
          have hex : ∃ t, uninstall env = (t, Except.error e)
              ∧ UEvent.enableService ∈ t := by
            refine ⟨_, by simp [uninstall, hfb, hen, hee]; rfl, ?_⟩
            simp
          obtain ⟨t, heq, hmem⟩ := hex
          rw [heq]
          exact hmem
      | none =>
          have hex : ∃ s t, uninstall env = uninstall_tail env s t
              ∧ UEvent.enableService ∈ t := by
            refine ⟨_, _, by simp [uninstall, hfb, hen, hee]; rfl, ?_⟩
            simp
          obtain ⟨s, t, heq, hmem⟩ := hex
          rw [heq]
          exact uninstall_tail_extends _ _ _ _ hmem

theorem C6_enable_backup_restore_witness :
    UEvent.enableService ∈ (uninstall C6_wenv).1 :=
  ((C6_enable_backup_restore [] true C6_wenv (by simp) rfl
      (Or.inl rfl) (Or.inl rfl)).2).mpr rfl
